import Mathlib

/-!
Verification development for `gameresult_to_csv.py`, a single-module script that
converts a JSON document of game-result records into a flat CSV file.

The JSON data model is embedded shallowly: a `Json` inductive with objects as
association lists in document key order (Python `dict` preserves insertion
order; keys of a parsed document are distinct).  Numbers are modelled as
integers; floating-point values do not influence any of the properties below.
Python `str()` / `repr()` on JSON-typed values are modelled by `pyStr` /
`pyRepr` (faithful on ASCII text; exotic non-ASCII control characters are kept
verbatim rather than `\u`-escaped, which no property here touches).
-/

set_option autoImplicit false

namespace GameResultCsv

/-- A JSON value as produced by `json.load`.  Objects keep document key order. -/
inductive Json where
  | null
  | bool (b : Bool)
  | num (n : Int)
  | str (s : String)
  | arr (elems : List Json)
  | obj (fields : List (String × Json))
deriving Inhabited

/-- `isinstance(v, (list, dict))`: the branch test used inside the dict rule of
`flatten_value`. -/
def isContainer : Json → Bool
  | .arr _ => true
  | .obj _ => true
  | _ => false

/-- True of `Json.str` values. -/
def Json.isStr : Json → Bool
  | .str _ => true
  | _ => false

/-- True of `Json.num` values. -/
def Json.isNum : Json → Bool
  | .num _ => true
  | _ => false

/-- True of `Json.obj` values (Python `isinstance(v, dict)`). -/
def Json.isObj : Json → Bool
  | .obj _ => true
  | _ => false

/-- Python truthiness of a JSON-typed value (`if value:`). -/
def pyTruthy : Json → Bool
  | .null => false
  | .bool b => b
  | .num n => n != 0
  | .str s => !s.isEmpty
  | .arr es => !es.isEmpty
  | .obj fs => !fs.isEmpty

/-- Lowercase hex digit, as used by Python `\xHH` escapes. -/
def hexDigit (n : Nat) : Char :=
  if n < 10 then Char.ofNat (48 + n) else Char.ofNat (87 + n)

/-- Two lowercase hex digits of a byte. -/
def hexByte (n : Nat) : String :=
  String.singleton (hexDigit (n / 16 % 16)) ++ String.singleton (hexDigit (n % 16))

/-- One character of Python `repr` of a string: escape the backslash, the
chosen delimiter, newline, carriage return, tab, and other ASCII control
characters; keep everything else. -/
def pyReprEscape (delim : Char) (c : Char) : String :=
  if c = Char.ofNat 92 then "\\\\"
  else if c = delim then "\\" ++ String.singleton delim
  else if c = Char.ofNat 10 then "\\n"
  else if c = Char.ofNat 13 then "\\r"
  else if c = Char.ofNat 9 then "\\t"
  else if c.toNat < 32 || c.toNat = 127 then "\\x" ++ hexByte c.toNat
  else String.singleton c

/-- Python `repr` of a string: single-quote delimited, unless the string holds
a single quote but no double quote. -/
def pyReprStr (s : String) : String :=
  let delim := if s.contains (Char.ofNat 39) && !(s.contains (Char.ofNat 34))
    then Char.ofNat 34 else Char.ofNat 39
  String.singleton delim ++ String.join (s.toList.map (pyReprEscape delim)) ++
    String.singleton delim

mutual
/-- Python `repr` of a JSON-typed value. -/
def pyRepr : Json → String
  | .null => "None"
  | .bool b => if b then "True" else "False"
  | .num n => toString n
  | .str s => pyReprStr s
  | .arr es => "[" ++ String.intercalate ", " (pyReprElems es) ++ "]"
  | .obj fs => "\x7b" ++ String.intercalate ", " (pyReprFields fs) ++ "\x7d"

/-- `repr` of each element of a list (container elements print via `repr`). -/
def pyReprElems : List Json → List String
  | [] => []
  | e :: rest => pyRepr e :: pyReprElems rest

/-- `repr(key): repr(value)` for each member of a dict. -/
def pyReprFields : List (String × Json) → List String
  | [] => []
  | (k, v) :: rest => (pyReprStr k ++ ": " ++ pyRepr v) :: pyReprFields rest
end

/-- Python `str()` of a JSON-typed value: the string itself for strings,
`repr` for every other JSON type. -/
def pyStr : Json → String
  | .str s => s
  | v => pyRepr v

/-- The date test at line 27: the dict carries the key `__type` and its value
compares equal (Python `==`) to the literal string `Date`, which holds exactly
of that string value. -/
def isDateMarker : Option Json → Bool
  | some (.str t) => t == "Date"
  | _ => false

mutual
/-- `flatten_value` (lines 12-41): convert nested structures to strings for
CSV.  Numbers and strings pass through unchanged; a dict carrying
`__type == "Date"` yields its `iso` value (default `""`); other dicts join
`"key: value"` items with `"; "`. -/
def flatten_value : Json → Json
  | .null => .str ""
  | .bool b => .str (if b then "True" else "False")
  | .num n => .num n
  | .str s => .str s
  | .arr es => .str (String.intercalate ", " (es.map pyStr))
  | .obj fs =>
      if isDateMarker (List.lookup "__type" fs) then
        (List.lookup "iso" fs).getD (.str "")
      else if fs.isEmpty then .str ""
      else .str (String.intercalate "; " (flattenItems fs))

/-- The dict items of `flatten_value`: the f-string joining key and value
with a colon-space, where the value part is the recursive flattening for
list/dict values and `str(v)` otherwise. -/
def flattenItems : List (String × Json) → List String
  | [] => []
  | (k, v) :: rest =>
      (k ++ ": " ++ (if isContainer v then pyStr (flatten_value v) else pyStr v))
        :: flattenItems rest
end

/-- Python `dict.get(k, d)` on a parsed JSON object. -/
def jGet (fs : List (String × Json)) (k : String) (d : Json) : Json :=
  (List.lookup k fs).getD d

/-- The `endDate` cell (lines 70-74): if the fetched value is a dict holding
an `iso` key, that entry (whatever its type); otherwise the empty string. -/
def endDateCell : Json → Json
  | .obj dfs =>
      match List.lookup "iso" dfs with
      | some v => v
      | none => .str ""
  | _ => .str ""

/-- One category of `powerCardsOwned` (line 96): the comma-space join of
`str(card)` over the cards when the value is a list, else `str(cards)`. -/
def cardsCellStr : Json → String
  | .arr cards => String.intercalate ", " (cards.map pyStr)
  | v => pyStr v

/-- The `powerCardsOwned` cell (lines 91-100).  A truthy value must be a dict
(`.items()`), else the record-level `AttributeError` propagates; a falsy value
yields the empty string. -/
def powerCardsOwnedCell (p : Json) : Except String Json :=
  if pyTruthy p then
    match p with
    | .obj fs =>
        .ok (.str (String.intercalate "; "
          (fs.map fun kv => kv.1 ++ ": " ++ cardsCellStr kv.2)))
    | _ => .error "AttributeError: items"
  else
    .ok (.str "")

/-- The fixed column schema: the keys of the row built by `extract_fields`, in
assignment order (lines 45-101). -/
def csvSchema : List String :=
  ["objectId", "adversary", "adversaryLevel", "scenario", "usingEvents",
   "usingTokens", "isMultiplayer", "waveNumber", "endingResult", "blightCard",
   "blightCardFlipped", "blightRemaining", "score", "turn",
   "invaderCardsInDeck", "invaderCardsNotInDeck", "blightOnIsland",
   "dahanOnIsland", "terrorLevel", "installationId", "endDate", "createdAt",
   "updatedAt", "spirits", "boards", "powerProgressionSpirits",
   "practiceModes", "powerCardsInDiscard", "emptyPresenceTrackNodes",
   "layout", "powerCardsOwned"]

/-- `extract_fields` (lines 43-102): build the flattened row of one record.
A non-dict record fails at the first `.get` (`AttributeError`); a dict record
fails only in the `powerCardsOwned` block, so binding that cell first is
equivalent to the source order (an error discards the whole row). -/
def extract_fields : Json → Except String (List (String × Json))
  | .obj fs =>
      match powerCardsOwnedCell (jGet fs "powerCardsOwned" (.obj [])) with
      | .error e => .error e
      | .ok pco =>
          .ok [("objectId", jGet fs "objectId" (.str "")),
               ("adversary", jGet fs "adversary" (.str "")),
               ("adversaryLevel", jGet fs "adversaryLevel" (.str "")),
               ("scenario", jGet fs "scenario" (.str "")),
               ("usingEvents", jGet fs "usingEvents" (.bool false)),
               ("usingTokens", jGet fs "usingTokens" (.bool false)),
               ("isMultiplayer", jGet fs "isMultiplayer" (.bool false)),
               ("waveNumber", jGet fs "waveNumber" (.str "")),
               ("endingResult", jGet fs "endingResult" (.str "")),
               ("blightCard", jGet fs "blightCard" (.str "")),
               ("blightCardFlipped", jGet fs "blightCardFlipped" (.bool false)),
               ("blightRemaining", jGet fs "blightRemaining" (.str "")),
               ("score", jGet fs "score" (.str "")),
               ("turn", jGet fs "turn" (.str "")),
               ("invaderCardsInDeck", jGet fs "invaderCardsInDeck" (.str "")),
               ("invaderCardsNotInDeck", jGet fs "invaderCardsNotInDeck" (.str "")),
               ("blightOnIsland", jGet fs "blightOnIsland" (.str "")),
               ("dahanOnIsland", jGet fs "dahanOnIsland" (.str "")),
               ("terrorLevel", jGet fs "terrorLevel" (.str "")),
               ("installationId", jGet fs "installationId" (.str "")),
               ("endDate", endDateCell (jGet fs "endDate" (.obj []))),
               ("createdAt", jGet fs "createdAt" (.str "")),
               ("updatedAt", jGet fs "updatedAt" (.str "")),
               ("spirits", flatten_value (jGet fs "spirits" (.arr []))),
               ("boards", flatten_value (jGet fs "boards" (.arr []))),
               ("powerProgressionSpirits", flatten_value (jGet fs "powerProgressionSpirits" (.arr []))),
               ("practiceModes", flatten_value (jGet fs "practiceModes" (.arr []))),
               ("powerCardsInDiscard", flatten_value (jGet fs "powerCardsInDiscard" (.arr []))),
               ("emptyPresenceTrackNodes", flatten_value (jGet fs "emptyPresenceTrackNodes" (.arr []))),
               ("layout", flatten_value (jGet fs "layout" (.obj []))),
               ("powerCardsOwned", pco)]
  | _ => .error "AttributeError: get"

/-! ### The pipeline driver `main` (lines 104-153)

The file system is abstracted into a `ReadResult`: the input file is missing,
holds invalid JSON, or parses to a document.  The outcome records the exit
status, the error/warning stream, and the CSV rows written. -/

/-- Result of `open` + `json.load` (lines 110-118). -/
inductive ReadResult where
  | fileNotFound
  | invalidJson
  | parsed (doc : Json)

/-- A row as passed to `csv.DictWriter`. -/
abbrev Row := List (String × Json)

/-- Outcome of one run: an uncaught exception (exit status 1, traceback on
stderr, no output file), a reported error plus `sys.exit(1)` (no output file),
or success (exit status 0, CSV written).  Warnings carry the 1-based indices
of skipped records. -/
inductive MainOutcome where
  | crash (msg : String)
  | errExit (msg : String) (warnings : List Nat)
  | success (rows : List Row) (warnings : List Nat)

/-- `startsWithList ns hs`: `ns` is an initial segment of `hs`. -/
def startsWithList : List Char → List Char → Bool
  | [], _ => true
  | _ :: _, [] => false
  | a :: as, b :: bs => a == b && startsWithList as bs

/-- `containsList ns hs`: `ns` occurs contiguously inside `hs`. -/
def containsList (ns : List Char) : List Char → Bool
  | [] => ns.isEmpty
  | c :: rest => startsWithList ns (c :: rest) || containsList ns rest

/-- Python `needle in hay` for strings: substring containment. -/
def strContainsSub (hay needle : String) : Bool :=
  containsList needle.toList hay.toList

/-- The membership test `results in data` (line 120): key membership for a
dict, element equality for a list, substring test for a string; `TypeError`
(`none`) for the other JSON types. -/
def resultsInCheck : Json → Option Bool
  | .obj fs => some (List.lookup "results" fs).isSome
  | .arr es =>
      some (es.any fun e => match e with | .str s => s == "results" | _ => false)
  | .str s => some (strContainsSub s "results")
  | _ => none

/-- `len(results)` / `enumerate(results)` (lines 125-129): a list yields its
elements, a string its one-character substrings, a dict its keys; `TypeError`
(`none`) for the other JSON types. -/
def iterRecords : Json → Option (List Json)
  | .arr es => some es
  | .str s => some (s.toList.map fun c => Json.str (String.singleton c))
  | .obj fs => some (fs.map fun kv => Json.str kv.1)
  | _ => none

/-- The extraction loop (lines 128-135): collect the successful rows in order
and the 1-based indices of the records whose extraction raised. -/
def extractLoop : List Json → Nat → List Row × List Nat
  | [], _ => ([], [])
  | g :: rest, i =>
      let acc := extractLoop rest (i + 1)
      match extract_fields g with
      | .ok row => (row :: acc.1, acc.2)
      | .error _ => (acc.1, (i + 1) :: acc.2)

/-- `main` (lines 104-153). -/
def main : ReadResult → MainOutcome
  | .fileNotFound => .errExit "Error: GameResult2.json not found!" []
  | .invalidJson => .errExit "Error: Invalid JSON in GameResult2.json" []
  | .parsed doc =>
      match resultsInCheck doc with
      | none => .crash "TypeError: argument of type is not iterable"
      | some false => .errExit "Error: results key not found in JSON" []
      | some true =>
          match doc with
          | .obj fs =>
              match iterRecords (jGet fs "results" .null) with
              | none => .crash "TypeError: object has no len"
              | some records =>
                  let er := extractLoop records 0
                  if er.1.isEmpty then
                    .errExit "Error: No valid game results found" er.2
                  else
                    .success er.1 er.2
          | _ => .crash "TypeError: string indices must be integers"

/-- Process exit status of an outcome (an uncaught exception also exits 1). -/
def exitCode : MainOutcome → Nat
  | .crash _ => 1
  | .errExit _ _ => 1
  | .success _ _ => 0

/-- Whether the run wrote the output CSV file. -/
def wroteOutput : MainOutcome → Bool
  | .success _ _ => true
  | _ => false

/-- The fatal message written to stderr, when there is one. -/
def errMessage : MainOutcome → Option String
  | .crash m => some m
  | .errExit m _ => some m
  | .success _ _ => none

/-- The document carries a top-level `results` key (only objects have keys). -/
def docHasResultsKey : Json → Bool
  | .obj fs => (List.lookup "results" fs).isSome
  | _ => false

/-- The rows surviving extraction, read off the document directly. -/
def survivors (doc : Json) : List Row :=
  match doc with
  | .obj fs =>
      match iterRecords (jGet fs "results" .null) with
      | some records => records.filterMap fun g => (extract_fields g).toOption
      | none => []
  | _ => []

/-- The failure condition of the spec: missing file, invalid JSON, no
top-level `results` key, or zero records surviving extraction. -/
def runFails : ReadResult → Bool
  | .fileNotFound => true
  | .invalidJson => true
  | .parsed doc => !docHasResultsKey doc || (survivors doc).isEmpty

/-- The 1-based positions of the records whose extraction raises. -/
def failPositions (records : List Json) : List Nat :=
  (records.enum.filter fun p => !(extract_fields p.2).toOption.isSome).map
    fun p => p.1 + 1

/-! ### Sample values used by the concrete instances below -/

/-- The sample date wrapper of the spec. -/
def dateWrapperSample : Json :=
  .obj [("__type", .str "Date"), ("iso", .str "2024-01-01T00:00:00Z")]

/-- The row extracted from a record whose `createdAt` is a date wrapper. -/
def c7SampleRow : Row :=
  (extract_fields (.obj [("createdAt", dateWrapperSample)])).toOption.getD []

/-- The row extracted from a record carrying the sample ownership map. -/
def c8SampleRow : Row :=
  (extract_fields (.obj [("powerCardsOwned",
    .obj [("SpiritA", .arr [.str "Card1", .str "Card2"]),
          ("SpiritB", .arr [.str "Card3"])])])).toOption.getD []

/-- The row extracted from the empty record. -/
def emptyRecordRow : Row := (extract_fields (.obj [])).toOption.getD []

/-! ### Helper lemmas -/

/-- The date-marker test holds exactly of the value `"Date"`. -/
lemma isDateMarker_iff (o : Option Json) :
    isDateMarker o = true ↔ o = some (.str "Date") := by
  cases o with
  | none => simp [isDateMarker]
  | some v => cases v <;> simp [isDateMarker]

/-- `flattenItems` is the map of the per-item formatting over the members. -/
lemma flattenItems_eq_map : ∀ fs : List (String × Json),
    flattenItems fs = fs.map fun kv =>
      kv.1 ++ ": " ++ (if isContainer kv.2 then pyStr (flatten_value kv.2) else pyStr kv.2)
  | [] => rfl
  | (k, v) :: rest => by
      simp [flattenItems, flattenItems_eq_map rest]

/-! ### Claims about the Value Flattener -/

/-- C3: the Value Flattener maps null to the empty string, a boolean to its
textual form `"True"`/`"False"`, and passes numbers and strings through
unchanged. -/
theorem flatten_scalar_rules :
    flatten_value .null = .str ""
    ∧ (∀ b, flatten_value (.bool b) = .str (if b then "True" else "False"))
    ∧ (∀ n : Int, flatten_value (.num n) = .num n)
    ∧ (∀ s, flatten_value (.str s) = .str s) :=
  ⟨rfl, fun _ => rfl, fun _ => rfl, fun _ => rfl⟩

/-- C4: the Value Flattener joins the textual forms (`str(item)`, the default
textual representation, not a recursive flattening) of the elements of an
array with `", "` in original order; the empty array yields `""`. -/
theorem flatten_array_rule :
    (∀ es, flatten_value (.arr es) = .str (String.intercalate ", " (es.map pyStr)))
    ∧ flatten_value (.arr []) = .str "" :=
  ⟨fun _ => rfl, rfl⟩

/-- C5: a dict whose `__type` value is `"Date"` flattens to its `iso` entry,
defaulting to the empty string; the sample wrapper yields its ISO string. -/
theorem flatten_date_wrapper_rule :
    (∀ fs, List.lookup "__type" fs = some (.str "Date") →
      flatten_value (.obj fs) = (List.lookup "iso" fs).getD (.str ""))
    ∧ flatten_value (.obj [("__type", .str "Date"),
        ("iso", .str "2024-01-01T00:00:00Z")]) = .str "2024-01-01T00:00:00Z" := by
  refine ⟨fun fs h => ?_, rfl⟩
  have hd : isDateMarker (List.lookup "__type" fs) = true := (isDateMarker_iff _).mpr h
  simp [flatten_value, hd]

/-- Witness for C5 at a concrete wrapper (with a non-string `iso` value, to
exercise the as-is extraction). -/
theorem flatten_date_wrapper_rule_witness :
    List.lookup "__type" [("__type", Json.str "Date"), ("iso", Json.num 7)]
        = some (.str "Date")
    ∧ flatten_value (.obj [("__type", .str "Date"), ("iso", .num 7)])
        = (List.lookup "iso" [("__type", Json.str "Date"), ("iso", Json.num 7)]).getD (.str "") :=
  ⟨rfl, flatten_date_wrapper_rule.1 _ rfl⟩

/-- C6: a dict that is not a date wrapper flattens to its `"key: value"`
items joined with `"; "` in key order, where a list/dict value is recursively
flattened and any other value takes its default textual form; the empty dict
yields `""`, and the sample nested object yields `"x: 1; y: 2, 3"`. -/
theorem flatten_generic_object_rule :
    (∀ fs, List.lookup "__type" fs ≠ some (.str "Date") →
      flatten_value (.obj fs) = .str (String.intercalate "; " (fs.map fun kv =>
        kv.1 ++ ": " ++
          (if isContainer kv.2 then pyStr (flatten_value kv.2) else pyStr kv.2))))
    ∧ flatten_value (.obj []) = .str ""
    ∧ flatten_value (.obj [("x", .num 1), ("y", .arr [.num 2, .num 3])])
        = .str "x: 1; y: 2, 3" := by
  refine ⟨fun fs h => ?_, rfl, rfl⟩
  have hd : isDateMarker (List.lookup "__type" fs) = false := by
    rw [← Bool.not_eq_true, isDateMarker_iff]
    exact h
  cases fs with
  | nil => rfl
  | cons kv rest => simp [flatten_value, hd, flattenItems_eq_map]

/-- Witness for C6 at the sample nested object of the spec. -/
theorem flatten_generic_object_rule_witness :
    List.lookup "__type" [("x", Json.num 1), ("y", Json.arr [.num 2, .num 3])]
        ≠ some (.str "Date")
    ∧ flatten_value (.obj [("x", .num 1), ("y", .arr [.num 2, .num 3])])
        = .str (String.intercalate "; "
            ([("x", Json.num 1), ("y", Json.arr [.num 2, .num 3])].map fun kv =>
              kv.1 ++ ": " ++
                (if isContainer kv.2 then pyStr (flatten_value kv.2) else pyStr kv.2))) :=
  ⟨fun hcontra => Option.noConfusion hcontra,
   flatten_generic_object_rule.1 _ (fun hcontra => Option.noConfusion hcontra)⟩

/-- C10 counterexample: on the number `3` the Value Flattener returns the
number unchanged, not a string. -/
theorem flatten_num_not_string : (flatten_value (.num 3)).isStr = false := rfl

/-- C10 as amended: the Value Flattener is total (it is a Lean function over
all JSON values) and returns a string, except that a number is passed through
unchanged and a date wrapper yields its `iso` entry as-is (empty string when
absent). -/
theorem flatten_total_shape : ∀ v : Json,
    (flatten_value v).isStr = true
    ∨ (v.isNum = true ∧ flatten_value v = v)
    ∨ (∃ fs, v = .obj fs ∧ List.lookup "__type" fs = some (.str "Date")
        ∧ flatten_value v = (List.lookup "iso" fs).getD (.str "")) := by
  intro v
  cases v with
  | null => exact Or.inl rfl
  | bool b => cases b <;> exact Or.inl rfl
  | num n => exact Or.inr (Or.inl ⟨rfl, rfl⟩)
  | str s => exact Or.inl rfl
  | arr es => exact Or.inl rfl
  | obj fs =>
      cases hd : isDateMarker (List.lookup "__type" fs) with
      | true =>
          refine Or.inr (Or.inr ⟨fs, rfl, (isDateMarker_iff _).mp hd, ?_⟩)
          simp [flatten_value, hd]
      | false =>
          refine Or.inl ?_
          cases fs with
          | nil => rfl
          | cons kv rest => simp [flatten_value, hd, Json.isStr]

/-! ### Helper lemmas about the Record Extractor and the driver -/

/-- Inversion of a successful extraction: the row is the literal 31-entry
schema row, with the `powerCardsOwned` cell computed first. -/
lemma extract_ok_elim (fs : List (String × Json)) (row : Row)
    (h : extract_fields (.obj fs) = .ok row) :
    ∃ pco, powerCardsOwnedCell (jGet fs "powerCardsOwned" (.obj [])) = .ok pco ∧
      row = [("objectId", jGet fs "objectId" (.str "")),
             ("adversary", jGet fs "adversary" (.str "")),
             ("adversaryLevel", jGet fs "adversaryLevel" (.str "")),
             ("scenario", jGet fs "scenario" (.str "")),
             ("usingEvents", jGet fs "usingEvents" (.bool false)),
             ("usingTokens", jGet fs "usingTokens" (.bool false)),
             ("isMultiplayer", jGet fs "isMultiplayer" (.bool false)),
             ("waveNumber", jGet fs "waveNumber" (.str "")),
             ("endingResult", jGet fs "endingResult" (.str "")),
             ("blightCard", jGet fs "blightCard" (.str "")),
             ("blightCardFlipped", jGet fs "blightCardFlipped" (.bool false)),
             ("blightRemaining", jGet fs "blightRemaining" (.str "")),
             ("score", jGet fs "score" (.str "")),
             ("turn", jGet fs "turn" (.str "")),
             ("invaderCardsInDeck", jGet fs "invaderCardsInDeck" (.str "")),
             ("invaderCardsNotInDeck", jGet fs "invaderCardsNotInDeck" (.str "")),
             ("blightOnIsland", jGet fs "blightOnIsland" (.str "")),
             ("dahanOnIsland", jGet fs "dahanOnIsland" (.str "")),
             ("terrorLevel", jGet fs "terrorLevel" (.str "")),
             ("installationId", jGet fs "installationId" (.str "")),
             ("endDate", endDateCell (jGet fs "endDate" (.obj []))),
             ("createdAt", jGet fs "createdAt" (.str "")),
             ("updatedAt", jGet fs "updatedAt" (.str "")),
             ("spirits", flatten_value (jGet fs "spirits" (.arr []))),
             ("boards", flatten_value (jGet fs "boards" (.arr []))),
             ("powerProgressionSpirits", flatten_value (jGet fs "powerProgressionSpirits" (.arr []))),
             ("practiceModes", flatten_value (jGet fs "practiceModes" (.arr []))),
             ("powerCardsInDiscard", flatten_value (jGet fs "powerCardsInDiscard" (.arr []))),
             ("emptyPresenceTrackNodes", flatten_value (jGet fs "emptyPresenceTrackNodes" (.arr []))),
             ("layout", flatten_value (jGet fs "layout" (.obj []))),
             ("powerCardsOwned", pco)] := by
  cases hp : powerCardsOwnedCell (jGet fs "powerCardsOwned" (.obj [])) with
  | error e =>
      simp only [extract_fields, hp] at h
      exact Except.noConfusion h
  | ok pco =>
      simp only [extract_fields, hp, Except.ok.injEq] at h
      exact ⟨pco, rfl, h.symm⟩

/-- Every successfully extracted row carries exactly the schema keys, in
schema order. -/
lemma extract_ok_keys (g : Json) (row : Row) (h : extract_fields g = .ok row) :
    row.map Prod.fst = csvSchema := by
  cases g with
  | obj fs =>
      obtain ⟨pco, _, hrow⟩ := extract_ok_elim fs row h
      subst hrow
      rfl
  | null => simp [extract_fields] at h
  | bool b => simp [extract_fields] at h
  | num n => simp [extract_fields] at h
  | str s => simp [extract_fields] at h
  | arr es => simp [extract_fields] at h

/-- `endDateCell` in closed form. -/
lemma endDateCell_eq (v : Json) :
    endDateCell v = (match v with
      | .obj dfs => (List.lookup "iso" dfs).getD (.str "")
      | _ => .str "") := by
  cases v with
  | obj dfs => cases h : List.lookup "iso" dfs <;> simp [endDateCell, h]
  | null => rfl
  | bool b => rfl
  | num n => rfl
  | str s => rfl
  | arr es => rfl

/-- `Except.toOption` inversion. -/
lemma toOption_some_ok {ε α : Type} {e : Except ε α} {a : α}
    (h : e.toOption = some a) : e = .ok a := by
  cases e with
  | ok b => simpa [Except.toOption] using congrArg (Option.map id) h
  | error _ => simp [Except.toOption] at h

/-- The first component of the extraction loop is the list of surviving rows. -/
lemma extractLoop_fst : ∀ (records : List Json) (i : Nat),
    (extractLoop records i).1 = records.filterMap fun g => (extract_fields g).toOption
  | [], _ => rfl
  | g :: rest, i => by
      cases h : extract_fields g with
      | ok row =>
          simp [extractLoop, h, Except.toOption, extractLoop_fst rest (i + 1),
            List.filterMap_cons]
      | error e =>
          simp [extractLoop, h, Except.toOption, extractLoop_fst rest (i + 1),
            List.filterMap_cons]

/-- The second component of the extraction loop is the 1-based positions of
the failing records, counted from the start index. -/
lemma extractLoop_snd : ∀ (records : List Json) (i : Nat),
    (extractLoop records i).2 =
      ((records.enumFrom i).filter fun p => !(extract_fields p.2).toOption.isSome).map
        fun p => p.1 + 1
  | [], _ => rfl
  | g :: rest, i => by
      cases h : extract_fields g with
      | ok row =>
          simp [extractLoop, h, Except.toOption, extractLoop_snd rest (i + 1),
            List.enumFrom_cons, List.filter_cons]
      | error e =>
          simp [extractLoop, h, Except.toOption, extractLoop_snd rest (i + 1),
            List.enumFrom_cons, List.filter_cons]

/-- `failPositions` agrees with the warnings of the extraction loop. -/
lemma failPositions_eq (records : List Json) :
    failPositions records = (extractLoop records 0).2 := by
  simp [failPositions, List.enum, extractLoop_snd]

/-- The driver on a parsed object document, in closed form. -/
lemma main_parsed_obj (fs : List (String × Json)) :
    main (.parsed (.obj fs)) =
      match List.lookup "results" fs with
      | none => .errExit "Error: results key not found in JSON" []
      | some v =>
          match iterRecords v with
          | none => .crash "TypeError: object has no len"
          | some records =>
              if (extractLoop records 0).1.isEmpty then
                .errExit "Error: No valid game results found" (extractLoop records 0).2
              else
                .success (extractLoop records 0).1 (extractLoop records 0).2 := by
  cases hk : List.lookup "results" fs with
  | none => simp [main, resultsInCheck, hk]
  | some v => simp [main, resultsInCheck, hk, jGet]

/-- Success inversion for the driver: the rows are the survivors of some
record list, and there is at least one of them. -/
lemma main_success_inv (input : ReadResult) (rows : List Row) (warns : List Nat)
    (h : main input = .success rows warns) :
    ∃ records : List Json,
      rows = (records.filterMap fun g => (extract_fields g).toOption)
      ∧ rows ≠ [] := by
  cases input with
  | fileNotFound => simp [main] at h
  | invalidJson => simp [main] at h
  | parsed doc =>
      cases doc with
      | null => simp [main, resultsInCheck] at h
      | bool b => simp [main, resultsInCheck] at h
      | num n => simp [main, resultsInCheck] at h
      | str s =>
          cases hb : strContainsSub s "results" <;>
            simp [main, resultsInCheck, hb] at h
      | arr es =>
          cases hb : es.any fun e =>
              match e with | .str s => s == "results" | _ => false
          all_goals simp [main, resultsInCheck, hb] at h
      | obj fs =>
          rw [main_parsed_obj] at h
          cases hk : List.lookup "results" fs with
          | none => simp [hk] at h
          | some v =>
              simp only [hk] at h
              cases hit : iterRecords v with
              | none => simp [hit] at h
              | some records =>
                  simp only [hit] at h
                  cases hE : (extractLoop records 0).1.isEmpty with
                  | true => simp [hE] at h
                  | false =>
                      simp only [hE, Bool.false_eq_true, if_false,
                        MainOutcome.success.injEq] at h
                      refine ⟨records, ?_, ?_⟩
                      · rw [← h.1, extractLoop_fst]
                      · rw [← h.1]
                        simpa [List.isEmpty_iff] using hE

/-! ### Claims about the Record Extractor -/

/-- C7 counterexample: on a record whose `createdAt` is a date wrapper, the
extractor stores the raw wrapper object in the row, not its ISO string — so
`createdAt` is not treated by the endDate iso-extraction rule. -/
theorem createdAt_not_iso_extracted :
    ((extract_fields (.obj [("createdAt", dateWrapperSample)])).toOption.map
      fun row => List.lookup "createdAt" row) = some (some dateWrapperSample)
    ∧ dateWrapperSample ≠ .str "2024-01-01T00:00:00Z" :=
  ⟨rfl, by simp [dateWrapperSample]⟩

/-- C7 as amended: only the one date field `endDate` receives the
iso-extraction treatment (a dict value with an `iso` entry yields that entry,
anything else yields the empty string), while `createdAt` and `updatedAt` are
read as raw values with an empty-string default. -/
theorem date_fields_amended (fs : List (String × Json)) (row : Row)
    (h : extract_fields (.obj fs) = .ok row) :
    List.lookup "endDate" row = some (match jGet fs "endDate" (.obj []) with
      | .obj dfs => (List.lookup "iso" dfs).getD (.str "")
      | _ => .str "")
    ∧ List.lookup "createdAt" row = some (jGet fs "createdAt" (.str ""))
    ∧ List.lookup "updatedAt" row = some (jGet fs "updatedAt" (.str "")) := by
  obtain ⟨pco, hp, hrow⟩ := extract_ok_elim fs row h
  subst hrow
  exact ⟨by simp [List.lookup, endDateCell_eq], by simp [List.lookup],
    by simp [List.lookup]⟩

/-- Witness for the amended C7 at the sample record. -/
theorem date_fields_amended_witness :
    extract_fields (.obj [("createdAt", dateWrapperSample)]) = .ok c7SampleRow
    ∧ List.lookup "createdAt" c7SampleRow
        = some (jGet [("createdAt", dateWrapperSample)] "createdAt" (.str "")) :=
  ⟨rfl, (date_fields_amended [("createdAt", dateWrapperSample)] c7SampleRow rfl).2.1⟩

/-- The `powerCardsOwned` cell of a map from categories to item arrays, in
closed form. -/
lemma powerCardsOwnedCell_map (m : List (String × List Json)) :
    powerCardsOwnedCell (.obj (m.map fun kv => (kv.1, Json.arr kv.2)))
      = .ok (.str (String.intercalate "; "
          (m.map fun kv =>
            kv.1 ++ ": " ++ String.intercalate ", " (kv.2.map pyStr)))) := by
  cases m with
  | nil => rfl
  | cons kv rest =>
      simp [powerCardsOwnedCell, pyTruthy, cardsCellStr, List.map_map,
        Function.comp_def]

/-- C8: the `powerCardsOwned` column joins `"category: item1, item2"` entries
with `"; "` in the key order of the map, each item list joined with `", "`; an
absent (or empty) map yields the empty string; the sample ownership map
yields `"SpiritA: Card1, Card2; SpiritB: Card3"`. -/
theorem ownership_map_rule :
    (∀ (fs : List (String × Json)) (m : List (String × List Json)) (row : Row),
      jGet fs "powerCardsOwned" (.obj [])
          = .obj (m.map fun kv => (kv.1, Json.arr kv.2)) →
      extract_fields (.obj fs) = .ok row →
      List.lookup "powerCardsOwned" row = some (.str (String.intercalate "; "
        (m.map fun kv =>
          kv.1 ++ ": " ++ String.intercalate ", " (kv.2.map pyStr)))))
    ∧ (∀ (fs : List (String × Json)) (row : Row),
      List.lookup "powerCardsOwned" fs = none →
      extract_fields (.obj fs) = .ok row →
      List.lookup "powerCardsOwned" row = some (.str ""))
    ∧ ((extract_fields (.obj [("powerCardsOwned",
          .obj [("SpiritA", .arr [.str "Card1", .str "Card2"]),
                ("SpiritB", .arr [.str "Card3"])])])).toOption.bind
        (fun row => List.lookup "powerCardsOwned" row)
        = some (.str "SpiritA: Card1, Card2; SpiritB: Card3")) := by
  refine ⟨?_, ?_, rfl⟩
  · intro fs m row hmap hok
    obtain ⟨pco, hp, hrow⟩ := extract_ok_elim fs row hok
    subst hrow
    rw [hmap, powerCardsOwnedCell_map] at hp
    have hpco := (Except.ok.inj hp).symm
    subst hpco
    simp [List.lookup]
  · intro fs row hnone hok
    obtain ⟨pco, hp, hrow⟩ := extract_ok_elim fs row hok
    subst hrow
    simp only [jGet, hnone, Option.getD_none] at hp
    have hpco := (Except.ok.inj hp).symm
    subst hpco
    simp [List.lookup]

/-- Witness for C8 at the sample ownership map. -/
theorem ownership_map_rule_witness :
    jGet [("powerCardsOwned", Json.obj
        [("SpiritA", .arr [.str "Card1", .str "Card2"]),
         ("SpiritB", .arr [.str "Card3"])])] "powerCardsOwned" (.obj [])
      = .obj (([("SpiritA", [Json.str "Card1", Json.str "Card2"]),
          ("SpiritB", [Json.str "Card3"])] : List (String × List Json)).map
            fun kv => (kv.1, Json.arr kv.2))
    ∧ List.lookup "powerCardsOwned" c8SampleRow
        = some (.str (String.intercalate "; "
          (([("SpiritA", [Json.str "Card1", Json.str "Card2"]),
             ("SpiritB", [Json.str "Card3"])] : List (String × List Json)).map
            fun kv =>
              kv.1 ++ ": " ++ String.intercalate ", " (kv.2.map pyStr)))) :=
  ⟨rfl, ownership_map_rule.1
    [("powerCardsOwned", Json.obj
        [("SpiritA", .arr [.str "Card1", .str "Card2"]),
         ("SpiritB", .arr [.str "Card3"])])]
    [("SpiritA", [Json.str "Card1", Json.str "Card2"]),
     ("SpiritB", [Json.str "Card3"])]
    c8SampleRow rfl rfl⟩

/-- C9: every successfully extracted row has exactly the fixed schema keys in
the fixed schema order, and so every row written in a successful run shares
the key set and order of the header derived from the first row. -/
theorem row_schema_invariant :
    (∀ (g : Json) (row : Row),
      extract_fields g = .ok row → row.map Prod.fst = csvSchema)
    ∧ (∀ (input : ReadResult) (rows : List Row) (warns : List Nat) (row : Row),
        main input = .success rows warns → row ∈ rows →
        row.map Prod.fst = (rows.headD []).map Prod.fst
        ∧ row.map Prod.fst = csvSchema) := by
  refine ⟨extract_ok_keys, ?_⟩
  intro input rows warns row hmain hmem
  obtain ⟨records, hrows, hne⟩ := main_success_inv input rows warns hmain
  have hall : ∀ r ∈ rows, r.map Prod.fst = csvSchema := by
    intro r hr
    rw [hrows] at hr
    obtain ⟨g, _, hsome⟩ := List.mem_filterMap.mp hr
    exact extract_ok_keys g r (toOption_some_ok hsome)
  have hrow := hall row hmem
  have hhead : (rows.headD []).map Prod.fst = csvSchema := by
    cases rows with
    | nil => exact absurd rfl hne
    | cons a t => simpa using hall a (by simp)
  exact ⟨hrow.trans hhead.symm, hrow⟩

/-- Witness for C9: the empty record extracts to a row with the schema keys. -/
theorem row_schema_invariant_witness :
    extract_fields (.obj []) = .ok emptyRecordRow
    ∧ emptyRecordRow.map Prod.fst = csvSchema :=
  ⟨rfl, row_schema_invariant.1 (.obj []) emptyRecordRow rfl⟩

/-! ### Claims about the pipeline driver -/

/-- C1: on a document whose `results` array holds at least one record that
extracts successfully, the run succeeds (exit status `0`) with exactly one
data row per successfully extracted record, in order, and a warning carrying
the 1-based position of every skipped record. -/
theorem per_record_skip (fs : List (String × Json)) (records : List Json)
    (hres : List.lookup "results" fs = some (.arr records))
    (hone : ∃ g ∈ records, ((extract_fields g).toOption).isSome = true) :
    main (.parsed (.obj fs)) =
      .success (records.filterMap fun g => (extract_fields g).toOption)
        (failPositions records)
    ∧ exitCode (main (.parsed (.obj fs))) = 0 := by
  have hne : (records.filterMap fun g => (extract_fields g).toOption) ≠ [] := by
    obtain ⟨g, hg, hsome⟩ := hone
    intro hnil
    rw [List.filterMap_eq_nil_iff.mp hnil g hg] at hsome
    simp at hsome
  have hE : (extractLoop records 0).1.isEmpty = false := by
    rw [extractLoop_fst]
    simpa [List.isEmpty_iff] using hne
  have hmain : main (.parsed (.obj fs)) =
      .success (extractLoop records 0).1 (extractLoop records 0).2 := by
    rw [main_parsed_obj]
    simp only [hres, iterRecords, hE, Bool.false_eq_true, if_false]
  rw [hmain, extractLoop_fst, failPositions_eq]
  exact ⟨rfl, rfl⟩

/-- Witness for C1: two well-formed records and one record (a bare number)
whose extraction raises; the run succeeds with two rows and the warning names
position 3, matching the end-to-end example of the spec. -/
theorem per_record_skip_witness :
    List.lookup "results" [("results", Json.arr [.obj [], .obj [], .num 5])]
        = some (.arr [.obj [], .obj [], .num 5])
    ∧ (∃ g ∈ [Json.obj [], Json.obj [], Json.num 5],
        ((extract_fields g).toOption).isSome = true)
    ∧ (main (.parsed (.obj [("results", .arr [.obj [], .obj [], .num 5])]))
        = .success ([Json.obj [], Json.obj [], Json.num 5].filterMap
            fun g => (extract_fields g).toOption)
          (failPositions [Json.obj [], Json.obj [], Json.num 5])
      ∧ exitCode (main (.parsed
          (.obj [("results", .arr [.obj [], .obj [], .num 5])]))) = 0)
    ∧ failPositions [Json.obj [], Json.obj [], Json.num 5] = [3]
    ∧ ([Json.obj [], Json.obj [], Json.num 5].filterMap
        fun g => (extract_fields g).toOption).length = 2 :=
  ⟨rfl, ⟨.obj [], by simp, rfl⟩,
   per_record_skip [("results", Json.arr [.obj [], .obj [], .num 5])]
     [Json.obj [], Json.obj [], Json.num 5] rfl ⟨.obj [], by simp, rfl⟩,
   rfl, rfl⟩

/-- The exit-code triple for a document with a `results` key whose value can
be iterated: the run fails exactly when no row survives. -/
lemma exit_code_claim_aux (fs : List (String × Json)) (v : Json)
    (records : List Json) (hk : List.lookup "results" fs = some v)
    (hit : iterRecords v = some records) :
    exitCode (main (.parsed (.obj fs)))
        = (if runFails (.parsed (.obj fs)) then 1 else 0)
    ∧ wroteOutput (main (.parsed (.obj fs))) = !runFails (.parsed (.obj fs))
    ∧ (errMessage (main (.parsed (.obj fs)))).isSome
        = runFails (.parsed (.obj fs)) := by
  have hrf : runFails (.parsed (.obj fs)) = (extractLoop records 0).1.isEmpty := by
    simp [runFails, docHasResultsKey, hk, survivors, jGet, hit, extractLoop_fst]
  have hm : main (.parsed (.obj fs)) =
      if (extractLoop records 0).1.isEmpty then
        .errExit "Error: No valid game results found" (extractLoop records 0).2
      else .success (extractLoop records 0).1 (extractLoop records 0).2 := by
    rw [main_parsed_obj]
    simp only [hk, hit]
  rw [hrf, hm]
  cases hE : (extractLoop records 0).1.isEmpty <;>
    simp [exitCode, wroteOutput, errMessage]

/-- The exit-code triple for a document whose `results` value cannot be
iterated: the run crashes with a `TypeError`, exit status `1`. -/
lemma exit_code_claim_crash (fs : List (String × Json)) (v : Json)
    (hk : List.lookup "results" fs = some v) (hit : iterRecords v = none) :
    exitCode (main (.parsed (.obj fs)))
        = (if runFails (.parsed (.obj fs)) then 1 else 0)
    ∧ wroteOutput (main (.parsed (.obj fs))) = !runFails (.parsed (.obj fs))
    ∧ (errMessage (main (.parsed (.obj fs)))).isSome
        = runFails (.parsed (.obj fs)) := by
  have hrf : runFails (.parsed (.obj fs)) = true := by
    simp [runFails, docHasResultsKey, hk, survivors, jGet, hit]
  have hm : main (.parsed (.obj fs)) = .crash "TypeError: object has no len" := by
    rw [main_parsed_obj]
    simp only [hk, hit]
  rw [hrf, hm]
  exact ⟨rfl, rfl, rfl⟩

/-- C2: the run exits with status 1 — with an error message on stderr and no
output file written — exactly when the input file is missing, the input is
not valid JSON, the document carries no top-level `results` key, or zero
records survive extraction; in every other case it exits with status 0 and
writes the output.  (A document whose `results` value cannot be iterated
crashes with an uncaught `TypeError` before extraction: status 1, a traceback
on stderr, no output, and zero surviving records.) -/
theorem spec_exit_codes (input : ReadResult) :
    exitCode (main input) = (if runFails input then 1 else 0)
    ∧ wroteOutput (main input) = !runFails input
    ∧ (errMessage (main input)).isSome = runFails input := by
  cases input with
  | fileNotFound => exact ⟨rfl, rfl, rfl⟩
  | invalidJson => exact ⟨rfl, rfl, rfl⟩
  | parsed doc =>
      cases doc with
      | null => exact ⟨rfl, rfl, rfl⟩
      | bool b => exact ⟨rfl, rfl, rfl⟩
      | num n => exact ⟨rfl, rfl, rfl⟩
      | str s =>
          cases hb : strContainsSub s "results" with
          | true =>
              have hm : main (.parsed (.str s)) =
                  .crash "TypeError: string indices must be integers" := by
                simp [main, resultsInCheck, hb]
              rw [hm]
              exact ⟨rfl, rfl, rfl⟩
          | false =>
              have hm : main (.parsed (.str s)) =
                  .errExit "Error: results key not found in JSON" [] := by
                simp [main, resultsInCheck, hb]
              rw [hm]
              exact ⟨rfl, rfl, rfl⟩
      | arr es =>
          cases hb : es.any fun e =>
              match e with | .str s => s == "results" | _ => false with
          | true =>
              have hm : main (.parsed (.arr es)) =
                  .crash "TypeError: string indices must be integers" := by
                simp [main, resultsInCheck, hb]
              rw [hm]
              exact ⟨rfl, rfl, rfl⟩
          | false =>
              have hm : main (.parsed (.arr es)) =
                  .errExit "Error: results key not found in JSON" [] := by
                simp [main, resultsInCheck, hb]
              rw [hm]
              exact ⟨rfl, rfl, rfl⟩
      | obj fs =>
          cases hk : List.lookup "results" fs with
          | none =>
              have hm : main (.parsed (.obj fs)) =
                  .errExit "Error: results key not found in JSON" [] := by
                rw [main_parsed_obj]
                simp only [hk]
              have hrf : runFails (.parsed (.obj fs)) = true := by
                simp [runFails, docHasResultsKey, hk]
              rw [hm, hrf]
              exact ⟨rfl, rfl, rfl⟩
          | some v =>
              cases v with
              | null => exact exit_code_claim_crash fs _ hk rfl
              | bool b => exact exit_code_claim_crash fs _ hk rfl
              | num n => exact exit_code_claim_crash fs _ hk rfl
              | str s => exact exit_code_claim_aux fs _ _ hk rfl
              | arr res => exact exit_code_claim_aux fs _ _ hk rfl
              | obj gfs => exact exit_code_claim_aux fs _ _ hk rfl

end GameResultCsv
